import Mathlib

/-!
Shallow embedding of `src/Tilemap/Layer.js` (the YED Tilemap Layer renderer)
and proofs about its rendering, loop-wrapping and parallax-scroll behaviour.

Modelling conventions:
* JavaScript numbers that only ever hold integers are `Nat`/`Int`; object
  coordinates, which may be fractional, are `ℚ` and `Math.round` is Mathlib's
  `round` (both round halves up).
* The JS `%` operator (remainder with the sign of the dividend) is `Int.tmod`.
* `parseInt(...)` results are `Option Int`: `none` models `NaN` (property
  absent or non-numeric), which is falsy under `!!`.
* A thrown `TypeError` (null dereference) is `none` in an `Option` result.
* External collaborators (tileset, `$gameMap`, `Graphics`, `ImageManager`)
  are fields of `Tileset` / `RenderEnv`.
-/

namespace YED

/-- External tileset collaborator: `isInTileset(tileId)` and
`getBlockTransferParams(tileId, x, y)` (the list of arguments later applied
to `Bitmap.blt`). -/
structure Tileset where
  isInTileset : Int → Bool
  getBlockTransferParams : Int → Int → Int → List Int

/-- The layer's custom property bag (`data.properties`).  Fields model the
truthiness of the stored values as the source consumes them: `parallax`,
`collision` and `regionId` are only ever tested with `!!`; `layer` is a
string tested with `!!` and compared lower-cased (the empty string is falsy
in JS, and it also fails the comparison, so `Option String` with `none` for
absent is observationally faithful); `planeX` / `planeY` hold the
`parseInt` result, `none` standing for `NaN`. -/
structure LayerProperties where
  parallax : Bool := false
  collision : Bool := false
  regionId : Bool := false
  layer : Option String := none
  planeX : Option Int := none
  planeY : Option Int := none
  deriving DecidableEq

/-- One record of `data.objects`: `{gid, x, y, height, ...}`.  `x`, `y` and
`height` may be fractional. -/
structure TiledObject where
  gid : Int
  x : ℚ
  y : ℚ
  height : ℚ
  deriving DecidableEq

/-- The Tiled JSON layer object consumed by the Layer renderer. -/
structure LayerData where
  type : String
  width : Nat := 0
  height : Nat := 0
  data : List Int := []
  objects : List TiledObject := []
  image : String := ""
  x : Int := 0
  y : Int := 0
  visible : Bool := true
  properties : Option LayerProperties := none

/-- A draw call recorded on a bitmap: either a `_drawTile` call (the actual
blit applies `tileset.getBlockTransferParams(tileId, x, y)` to the backing
bitmap, so the recorded `x`, `y` are the destination coordinates handed to
the tileset), or the single image blit of `_renderImageLayer`
(`dest.blt(img, 0, 0, img.width, img.height, data.x, data.y)`). -/
inductive DrawEvent where
  | tile (tileId : Int) (x : Int) (y : Int)
  | imageBlt (image : String) (w : Nat) (h : Nat) (dx : Int) (dy : Int)
  deriving DecidableEq

/-- A raster bitmap: its dimensions and the draw calls composited onto it. -/
structure Bitmap where
  width : Nat
  height : Nat
  draws : List DrawEvent := []
  deriving DecidableEq

/-- A `TilingSprite`: wraps a source bitmap (we keep its dimensions), has a
screen rectangle set by `move(x, y, width, height)` and a scroll `origin`.
A freshly constructed sprite has position, size and origin zero. -/
structure TilingSprite where
  bitmapWidth : Nat
  bitmapHeight : Nat
  x : Int := 0
  y : Int := 0
  width : Nat := 0
  height : Nat := 0
  originX : Int := 0
  originY : Int := 0
  deriving DecidableEq

/-- Ambient collaborators: `$gameMap.isLoopHorizontal()` /
`isLoopVertical()`, `Graphics.width` / `Graphics.height`, and the
dimensions of `ImageManager.loadParserParallax(name, 0)`. -/
structure RenderEnv where
  loopHorizontal : Bool
  loopVertical : Bool
  graphicsWidth : Nat
  graphicsHeight : Nat
  parallaxWidth : String → Nat
  parallaxHeight : String → Nat

/-- The Layer sprite: its data, tilesets, tile dimensions, the lazily
created backing bitmap `_layerBitmap`, the sprite's own `bitmap` content,
the `_tilingSprite` field and the node's children. -/
structure Layer where
  data : LayerData
  tilesets : List Tileset
  tileWidth : Nat
  tileHeight : Nat
  layerBitmap : Option Bitmap := none
  bitmap : Option Bitmap := none
  tilingSprite : Option TilingSprite := none
  children : List TilingSprite := []
  visible : Bool := true

/-- Models `Layer.prototype.initialize`: stores data, tilesets and tile
dimensions, leaves `_tilingSprite` null, and clears `visible` when
`data.visible` is false (a Sprite starts visible). -/
def Layer.construct (data : LayerData) (tilesets : List Tileset)
    (tileWidth tileHeight : Nat) : Layer :=
  { data := data, tilesets := tilesets,
    tileWidth := tileWidth, tileHeight := tileHeight,
    visible := data.visible }

/-- `gridHorz` getter: `_setupData` copies `data.width` into `_gridHorz`,
and the getter defaults to 0 (our `LayerData.width` already defaults to 0). -/
def Layer.gridHorz (l : Layer) : Nat := l.data.width

/-- `gridVert` getter, see `Layer.gridHorz`. -/
def Layer.gridVert (l : Layer) : Nat := l.data.height

/-- `tilesData` getter: `this.data.data`. -/
def Layer.tilesData (l : Layer) : List Int := l.data.data

/-- `objectsData` getter: `this.data.objects`. -/
def Layer.objectsData (l : Layer) : List TiledObject := l.data.objects

/-- `properties` getter: `this.data.properties || {}` — an absent bag is
replaced by the empty (all-default) object. -/
def Layer.properties (l : Layer) : LayerProperties :=
  l.data.properties.getD {}

/-- `isTileLayer`: `data.type === 'tilelayer'`. -/
def Layer.isTileLayer (l : Layer) : Bool := l.data.type == "tilelayer"

/-- `isObjectLayer`: `data.type === 'objectgroup'`. -/
def Layer.isObjectLayer (l : Layer) : Bool := l.data.type == "objectgroup"

/-- `isImageLayer`: `data.type === 'imagelayer'`. -/
def Layer.isImageLayer (l : Layer) : Bool := l.data.type == "imagelayer"

/-- `isPlaneLayer`: image layer with a truthy `parallax` property.  The
source also tests `!!this.properties`, which is always true because the
`properties` getter never returns a falsy value. -/
def Layer.isPlaneLayer (l : Layer) : Bool :=
  l.isImageLayer && l.properties.parallax

/-- `isLoopHorizontal`: delegates to `$gameMap.isLoopHorizontal()`. -/
def Layer.isLoopHorizontal (env : RenderEnv) : Bool := env.loopHorizontal

/-- `isLoopVertical`: delegates to `$gameMap.isLoopVertical()`. -/
def Layer.isLoopVertical (env : RenderEnv) : Bool := env.loopVertical

/-- `isLoop()`: horizontal or vertical wraparound. -/
def Layer.isLoop (env : RenderEnv) : Bool :=
  Layer.isLoopHorizontal env || Layer.isLoopVertical env

/-- `isCollisionLayer`: truthy `properties.collision`. -/
def Layer.isCollisionLayer (l : Layer) : Bool := l.properties.collision

/-- `isRegionLayer`: truthy `properties.regionId`. -/
def Layer.isRegionLayer (l : Layer) : Bool := l.properties.regionId

/-- `isUpperLayer`: when `properties.layer` is truthy, compare its
lower-casing with `'upper'`; otherwise false.  (A present-but-empty string
is falsy in JS; it also fails the comparison, so the result agrees.) -/
def Layer.isUpperLayer (l : Layer) : Bool :=
  match l.properties.layer with
  | some s => s.toLower == "upper"
  | none => false

/-- The branch condition at source lines 308 and 343 reads
`if (this.isLoop)` — the method is referenced without parentheses, so the
test is the truthiness of the function object itself, which is always true
in JavaScript; `isLoop()` is never actually called there. -/
def isLoopMethodTruthy : Bool := true

/-- `_getTileset`, on an explicit tileset list: scan in order, skip a
tileset when `isInTileset(tileId)` is false, return the first match;
`null` (here `none`) when the loop falls through. -/
def getTilesetFrom : List Tileset → Int → Option Tileset
  | [], _ => none
  | tileset :: rest, tileId =>
    if tileset.isInTileset tileId = false then getTilesetFrom rest tileId
    else some tileset

/-- `_getTileset` on a layer. -/
def Layer.getTileset (l : Layer) (tileId : Int) : Option Tileset :=
  getTilesetFrom l.tilesets tileId

/-- `_drawTile(tileId, x, y)`: resolve the tileset, then call
`tileset.getBlockTransferParams(tileId, x, y)` and apply it to the backing
bitmap.  When no tileset contains the ID, `_getTileset` returns `null` and
the parameter call is a fatal null dereference, modelled as `none`. -/
def drawTileCall (tilesets : List Tileset) (tileId x y : Int) :
    Option DrawEvent :=
  match getTilesetFrom tilesets tileId with
  | none => none
  | some _ => some (.tile tileId x y)

/-- The loop body of `_renderTileLayer`: walk `tilesData` with index `i`,
compute `bitmapX = (i % gridHorz) * tileWidth` and
`bitmapY = floor(i / gridHorz) * tileHeight`, skip tile ID 0, and
`_drawTile` the rest; a failed tileset resolution aborts the pass
(`none`).  Returns the recorded draw calls in iteration order. -/
def renderTileLoop (tilesets : List Tileset)
    (gridHorz tileWidth tileHeight : Nat) :
    List Int → Nat → Option (List DrawEvent)
  | [], _ => some []
  | tileId :: rest, i =>
    let bitmapX : Int := ((i % gridHorz) * tileWidth : Nat)
    let bitmapY : Int := ((i / gridHorz) * tileHeight : Nat)
    if tileId = 0 then
      renderTileLoop tilesets gridHorz tileWidth tileHeight rest (i + 1)
    else
      match drawTileCall tilesets tileId bitmapX bitmapY with
      | none => none
      | some ev =>
        (renderTileLoop tilesets gridHorz tileWidth tileHeight rest
          (i + 1)).map (ev :: ·)

/-- The loop body of `_renderObjectLayer`: walk `objectsData` in array
order, compute `bitmapX = Math.round(x)` and
`bitmapY = Math.round(y - height)`, skip `gid` 0, `_drawTile` the rest. -/
def renderObjectLoop (tilesets : List Tileset) :
    List TiledObject → Option (List DrawEvent)
  | [] => some []
  | obj :: rest =>
    let bitmapX : Int := round obj.x
    let bitmapY : Int := round (obj.y - obj.height)
    if obj.gid = 0 then
      renderObjectLoop tilesets rest
    else
      match drawTileCall tilesets obj.gid bitmapX bitmapY with
      | none => none
      | some ev => (renderObjectLoop tilesets rest).map (ev :: ·)

/-- `_renderLoopLayer`: wrap the backing bitmap in a `TilingSprite` whose
width is `Graphics.width` when the map loops horizontally, else the
bitmap's own width (likewise for the height), `move` it to `(0, 0)` with
those dimensions, and add it as a child. -/
def Layer.renderLoopLayer (env : RenderEnv) (bmp : Bitmap) (l : Layer) :
    Layer :=
  let tilingWidth :=
    if Layer.isLoopHorizontal env then env.graphicsWidth else bmp.width
  let tilingHeight :=
    if Layer.isLoopVertical env then env.graphicsHeight else bmp.height
  let sprite : TilingSprite :=
    { bitmapWidth := bmp.width, bitmapHeight := bmp.height,
      x := 0, y := 0, width := tilingWidth, height := tilingHeight }
  { l with tilingSprite := some sprite, children := l.children ++ [sprite] }

/-- `_renderTileLayer`: run the tile loop (drawing onto the backing bitmap
`bmp`, which `renderLayer` just ensured exists), then
`if (this.isLoop) { _renderLoopLayer() } else { this.bitmap = this._layerBitmap }`
— note the condition is the always-truthy method reference
(`isLoopMethodTruthy`), so the else branch is unreachable. -/
def Layer.renderTileLayer (env : RenderEnv) (bmp : Bitmap) (l : Layer) :
    Option Layer :=
  match renderTileLoop l.tilesets l.gridHorz l.tileWidth l.tileHeight
      l.tilesData 0 with
  | none => none
  | some events =>
    let bmp2 : Bitmap := { bmp with draws := bmp.draws ++ events }
    let l2 : Layer := { l with layerBitmap := some bmp2 }
    if isLoopMethodTruthy then some (l2.renderLoopLayer env bmp2)
    else some { l2 with bitmap := some bmp2 }

/-- `_renderObjectLayer`: run the object loop, then the same
always-truthy `if (this.isLoop)` finalization as the tile pass. -/
def Layer.renderObjectLayer (env : RenderEnv) (bmp : Bitmap) (l : Layer) :
    Option Layer :=
  match renderObjectLoop l.tilesets l.objectsData with
  | none => none
  | some events =>
    let bmp2 : Bitmap := { bmp with draws := bmp.draws ++ events }
    let l2 : Layer := { l with layerBitmap := some bmp2 }
    if isLoopMethodTruthy then some (l2.renderLoopLayer env bmp2)
    else some { l2 with bitmap := some bmp2 }

/-- `_renderImageLayer`: load the parallax image, blit it once at
`(data.x, data.y)` onto the backing bitmap, and assign the backing bitmap
as the sprite's content. -/
def Layer.renderImageLayer (env : RenderEnv) (bmp : Bitmap) (l : Layer) :
    Layer :=
  let imgW := env.parallaxWidth l.data.image
  let imgH := env.parallaxHeight l.data.image
  let bmp2 : Bitmap :=
    { bmp with draws :=
        bmp.draws ++ [.imageBlt l.data.image imgW imgH l.data.x l.data.y] }
  { l with layerBitmap := some bmp2, bitmap := some bmp2 }

/-- `_renderPlaneLayer`: load the parallax image, wrap it directly in a
`TilingSprite`, `move` it to `(data.x, data.y)` sized
`Graphics.width × Graphics.height`, and add it as a child.  The backing
bitmap is not drawn into here. -/
def Layer.renderPlaneLayer (env : RenderEnv) (l : Layer) : Layer :=
  let imgW := env.parallaxWidth l.data.image
  let imgH := env.parallaxHeight l.data.image
  let sprite : TilingSprite :=
    { bitmapWidth := imgW, bitmapHeight := imgH,
      x := l.data.x, y := l.data.y,
      width := env.graphicsWidth, height := env.graphicsHeight }
  { l with tilingSprite := some sprite, children := l.children ++ [sprite] }

/-- The entry statement of `renderLayer`:
`this._layerBitmap = this._layerBitmap || new Bitmap(gridHorz * tileWidth, gridVert * tileHeight)`.
Runs unconditionally, before the strategy dispatch.  Returns the updated
layer together with the (now guaranteed) backing bitmap. -/
def Layer.allocLayerBitmap (l : Layer) : Layer × Bitmap :=
  match l.layerBitmap with
  | some bmp => (l, bmp)
  | none =>
    let bmp : Bitmap :=
      { width := l.gridHorz * l.tileWidth,
        height := l.gridVert * l.tileHeight }
    ({ l with layerBitmap := some bmp }, bmp)

/-- `renderLayer()`: ensure the backing bitmap exists, then dispatch on the
layer kind.  The source uses four successive independent `if` statements;
they are mutually exclusive (the `type` string selects at most one of
tile/object/image, and the two image cases split on `isPlaneLayer`), so an
if/else chain is equivalent.  An unknown `type` falls through with no
strategy. -/
def Layer.renderLayer (env : RenderEnv) (l : Layer) : Option Layer :=
  let p := l.allocLayerBitmap
  if p.1.isObjectLayer then p.1.renderObjectLayer env p.2
  else if p.1.isTileLayer then p.1.renderTileLayer env p.2
  else if p.1.isImageLayer && !p.1.isPlaneLayer then
    some (p.1.renderImageLayer env p.2)
  else if p.1.isPlaneLayer then some (p.1.renderPlaneLayer env)
  else some p.1

/-- JS truthiness of a `parseInt` result: `NaN` (`none`) and `0` are
falsy, every other number is truthy. -/
def truthyNum : Option Int → Bool
  | none => false
  | some n => n != 0

/-- `_updatePlane`: return unless a tiling sprite exists; read
`xSpeed = parseInt(properties.planeX)` and `ySpeed = parseInt(properties.planeY)`;
for each truthy speed set
`origin.axis = (origin.axis + speed) % tilingSprite.bitmap.dimension`,
where `%` is the JS remainder (`Int.tmod`, sign of the dividend). -/
def Layer.updatePlane (l : Layer) : Layer :=
  match l.tilingSprite with
  | none => l
  | some sprite =>
    let xSpeed := l.properties.planeX
    let ySpeed := l.properties.planeY
    let ox := sprite.originX
    let oy := sprite.originY
    let mOx : Int := sprite.bitmapWidth
    let mOy : Int := sprite.bitmapHeight
    let sprite2 :=
      if truthyNum xSpeed then
        { sprite with originX := Int.tmod (ox + xSpeed.getD 0) mOx }
      else sprite
    let sprite3 :=
      if truthyNum ySpeed then
        { sprite2 with originY := Int.tmod (oy + ySpeed.getD 0) mOy }
      else sprite2
    { l with tilingSprite := some sprite3 }

/-- `update()`: calls `_updatePlane()`. -/
def Layer.update (l : Layer) : Layer := l.updatePlane

/-- `moveLoopLayer(x, y)`: return unless a tiling sprite exists; set its
origin to the absolute coordinate `(x, y)`. -/
def Layer.moveLoopLayer (l : Layer) (x y : Int) : Layer :=
  match l.tilingSprite with
  | none => l
  | some sprite =>
    { l with tilingSprite := some { sprite with originX := x, originY := y } }

/-- A sample tileset for concrete evaluations: contains every positive
tile ID, and returns `[tileId, x, y]` as blit parameters. -/
def sampleTileset : Tileset :=
  { isInTileset := fun tileId => decide (0 < tileId),
    getBlockTransferParams := fun tileId x y => [tileId, x, y] }

/-- A sample environment with a chosen loop configuration, an 816×624
viewport and 96×48 parallax images. -/
def mkEnv (lh lv : Bool) : RenderEnv :=
  { loopHorizontal := lh, loopVertical := lv,
    graphicsWidth := 816, graphicsHeight := 624,
    parallaxWidth := fun _ => 96, parallaxHeight := fun _ => 48 }

/-- A concrete 2×2 tile layer with tile data `[0, 5, 7, 0]`. -/
def tileLayerA : Layer :=
  Layer.construct
    { type := "tilelayer", width := 2, height := 2, data := [0, 5, 7, 0] }
    [sampleTileset] 16 16

/-- A concrete object layer: one `gid = 0` record and one fractional
record `gid = 5, x = 10.5, y = 50.4, height = 20.2`. -/
def objectLayerA : Layer :=
  Layer.construct
    { type := "objectgroup",
      objects := [{ gid := 0, x := 1, y := 2, height := 3 },
                  { gid := 5, x := 10.5, y := 50.4, height := 20.2 }] }
    [sampleTileset] 16 16

/-- A concrete layer whose `type` is none of the three known kinds. -/
def unknownLayerA : Layer :=
  Layer.construct { type := "fancy", width := 2, height := 2 } [] 16 16

/-- A concrete plane layer: image layer with a truthy `parallax` property,
placed at `(3, 4)`. -/
def planeLayerA : Layer :=
  Layer.construct
    { type := "imagelayer", image := "clouds", x := 3, y := 4,
      properties := some { parallax := true } } [] 16 16

/-- A tiling sprite over a 100×50 source bitmap, origin `(0, 0)`. -/
def loopSpriteA : TilingSprite :=
  { bitmapWidth := 100, bitmapHeight := 50, x := 0, y := 0,
    width := 816, height := 624 }

/-- A layer already holding `loopSpriteA`, with `planeX = 2, planeY = 0`. -/
def scrollLayerA : Layer :=
  { data := { type := "imagelayer",
              properties := some { parallax := true,
                                   planeX := some 2, planeY := some 0 } },
    tilesets := [], tileWidth := 16, tileHeight := 16,
    tilingSprite := some loopSpriteA }

/-- A layer already holding `loopSpriteA`, with `planeX = -2`. -/
def scrollLayerNeg : Layer :=
  { data := { type := "imagelayer",
              properties := some { parallax := true,
                                   planeX := some (-2) } },
    tilesets := [], tileWidth := 16, tileHeight := 16,
    tilingSprite := some loopSpriteA }

/-- A concrete layer whose data carries no properties mapping. -/
def noPropsLayerA : Layer :=
  Layer.construct { type := "imagelayer" } [] 16 16

end YED

open YED

/-- `_getTileset` has first-match (`List.find?`) semantics. -/
theorem getTilesetFrom_eq_find (tilesets : List Tileset) (tileId : Int) :
    getTilesetFrom tilesets tileId
      = tilesets.find? (fun t => t.isInTileset tileId) := by
  induction tilesets with
  | nil => rfl
  | cons t rest ih =>
    cases h : t.isInTileset tileId <;>
      simp [getTilesetFrom, List.find?, h, ih]

/-- Fields of the layer untouched by the backing-bitmap allocation, and the
guarantee that after it the backing bitmap exists (fresh and empty when it
was absent). -/
theorem allocLayerBitmap_fields (l : Layer) :
    l.allocLayerBitmap.1.data = l.data
    ∧ l.allocLayerBitmap.1.tilesets = l.tilesets
    ∧ l.allocLayerBitmap.1.tilingSprite = l.tilingSprite
    ∧ l.allocLayerBitmap.1.bitmap = l.bitmap
    ∧ l.allocLayerBitmap.1.layerBitmap.isSome = true
    ∧ (l.layerBitmap = none →
        l.allocLayerBitmap.1.layerBitmap
          = some { width := l.gridHorz * l.tileWidth,
                   height := l.gridVert * l.tileHeight, draws := [] }
        ∧ l.allocLayerBitmap.2
          = { width := l.gridHorz * l.tileWidth,
              height := l.gridVert * l.tileHeight, draws := [] }) := by
  cases h : l.layerBitmap <;>
    simp [Layer.allocLayerBitmap, h]

/-- `moveLoopLayer` is idempotent. -/
theorem moveLoopLayer_idem (l : Layer) (x y : Int) :
    (l.moveLoopLayer x y).moveLoopLayer x y = l.moveLoopLayer x y := by
  cases h : l.tilingSprite <;> simp [Layer.moveLoopLayer, h]

/-- C7: tile resolution scans the tileset list in order and returns the
first tileset that contains the given tile ID (`List.find?` semantics); it
returns `none` exactly when no supplied tileset contains the ID, and in
that case the blit-parameter call inside `_drawTile` dereferences the null
result — a fatal error, modelled as the `none` outcome of `drawTileCall`. -/
theorem C7_tileset_resolution (tilesets : List Tileset) (tileId : Int) :
    getTilesetFrom tilesets tileId
        = tilesets.find? (fun t => t.isInTileset tileId)
    ∧ (getTilesetFrom tilesets tileId = none
        ↔ ∀ t ∈ tilesets, t.isInTileset tileId = false)
    ∧ ((∀ t ∈ tilesets, t.isInTileset tileId = false) →
        ∀ x y : Int, drawTileCall tilesets tileId x y = none) := by
  have hfind := getTilesetFrom_eq_find tilesets tileId
  have hnone : getTilesetFrom tilesets tileId = none
      ↔ ∀ t ∈ tilesets, t.isInTileset tileId = false := by
    rw [hfind, List.find?_eq_none]
    simp
  refine ⟨hfind, hnone, fun hall x y => ?_⟩
  simp [drawTileCall, hnone.mpr hall]

/-- C7 witness: tile ID `-3` is in no supplied tileset, and `_drawTile` on
it is the fatal `none`. -/
theorem C7_tileset_resolution_witness :
    sampleTileset.isInTileset (-3) = false
    ∧ drawTileCall [sampleTileset] (-3) 5 6 = none := by
  refine ⟨by decide, ?_⟩
  exact (C7_tileset_resolution [sampleTileset] (-3)).2.2 (by decide) 5 6

/-- C1: evaluation at the failing input.  The map does not loop
(`isLoop` would return `false`), yet rendering the tile layer creates a
tiling sprite and never assigns the composited bitmap as the node's
content: the source tests the always-truthy method reference
`this.isLoop` instead of calling it, so the direct-assignment branch is
dead code. -/
theorem C1_loop_branch_eval :
    Layer.isLoop (mkEnv false false) = false
    ∧ ((tileLayerA.renderLayer (mkEnv false false)).map
        (fun l2 => (l2.tilingSprite.isSome, l2.bitmap.isSome)))
      = some (true, false) := by
  constructor
  · rfl
  · decide

/-- C9: `moveLoopLayer(x, y)` is a no-op without a tiling sprite, sets the
sprite's origin directly to `(x, y)` when one exists, and repeating the
call any number of times `n ≥ 1` equals calling it once. -/
theorem C9_moveLoopLayer_spec (l : Layer) (x y : Int) :
    (l.tilingSprite = none → l.moveLoopLayer x y = l)
    ∧ (∀ sprite, l.tilingSprite = some sprite →
        (l.moveLoopLayer x y).tilingSprite
          = some { sprite with originX := x, originY := y })
    ∧ (∀ n : Nat, (fun z : Layer => z.moveLoopLayer x y)^[n + 1] l
        = l.moveLoopLayer x y) := by
  refine ⟨fun h => by simp [Layer.moveLoopLayer, h],
    fun sprite h => by simp [Layer.moveLoopLayer, h], fun n => ?_⟩
  induction n with
  | zero => simp
  | succ m ih =>
    rw [Function.iterate_succ_apply', ih]
    exact moveLoopLayer_idem l x y

/-- C9 witness: on a layer holding a tiling sprite, one call sets the
origin to `(7, 9)` and three calls equal one call. -/
theorem C9_moveLoopLayer_witness :
    (scrollLayerA.moveLoopLayer 7 9).tilingSprite
        = some { loopSpriteA with originX := 7, originY := 9 }
    ∧ (fun z : Layer => z.moveLoopLayer 7 9)^[3] scrollLayerA
        = scrollLayerA.moveLoopLayer 7 9 :=
  ⟨(C9_moveLoopLayer_spec scrollLayerA 7 9).2.1 loopSpriteA rfl,
   (C9_moveLoopLayer_spec scrollLayerA 7 9).2.2 2⟩

/-- C10: when the layer data carries no properties mapping, the
`properties` accessor returns the empty (all-default) object, and all four
property-flag predicates return `false` (they are total functions in the
embedding; in the source the `|| {}` default is what keeps them from
dereferencing an absent bag). -/
theorem C10_default_properties (l : Layer) (h : l.data.properties = none) :
    l.properties = {}
    ∧ l.isPlaneLayer = false
    ∧ l.isCollisionLayer = false
    ∧ l.isRegionLayer = false
    ∧ l.isUpperLayer = false := by
  have hp : l.properties = ({} : LayerProperties) := by
    simp [Layer.properties, h]
  refine ⟨hp, ?_, ?_, ?_, ?_⟩ <;>
    simp [Layer.isPlaneLayer, Layer.isCollisionLayer, Layer.isRegionLayer,
      Layer.isUpperLayer, hp]

/-- C10 witness: a concrete layer without a properties mapping. -/
theorem C10_default_properties_witness :
    noPropsLayerA.data.properties = none
    ∧ noPropsLayerA.isPlaneLayer = false
    ∧ noPropsLayerA.isCollisionLayer = false
    ∧ noPropsLayerA.isRegionLayer = false
    ∧ noPropsLayerA.isUpperLayer = false := by
  have h := C10_default_properties noPropsLayerA rfl
  exact ⟨rfl, h.2.1, h.2.2.1, h.2.2.2.1, h.2.2.2.2⟩

/-- The tile loop yields exactly one recorded draw per non-zero entry, in
index order from start index `i`, at destination
`((i % gridHorz) * tileWidth, (i / gridHorz) * tileHeight)`, provided every
non-zero ID resolves to a tileset. -/
theorem renderTileLoop_eq_enumFrom (tilesets : List Tileset)
    (g tw th : Nat) :
    ∀ (tiles : List Int) (i : Nat),
      (∀ id ∈ tiles, id ≠ 0 → (getTilesetFrom tilesets id).isSome) →
      renderTileLoop tilesets g tw th tiles i
        = some ((tiles.enumFrom i).filterMap (fun p =>
            if p.2 = 0 then none
            else some (DrawEvent.tile p.2 (((p.1 % g) * tw : Nat) : Int)
              (((p.1 / g) * th : Nat) : Int))))
  | [], _, _ => rfl
  | tileId :: rest, i, hres => by
    have ih := renderTileLoop_eq_enumFrom tilesets g tw th rest (i + 1)
      (fun id hid h0 => hres id (List.mem_cons_of_mem _ hid) h0)
    by_cases h0 : tileId = 0
    · simp [renderTileLoop, h0, List.enumFrom, ih]
    · obtain ⟨ts, hts⟩ := Option.isSome_iff_exists.mp
        (hres tileId (List.mem_cons_self _ _) h0)
    
      simp [renderTileLoop, h0, drawTileCall, hts, List.enumFrom, ih]

/-- The object loop yields exactly one recorded draw per non-zero `gid`, in
array order, at destination `(round x, round (y - height))`, provided
every non-zero `gid` resolves to a tileset. -/
theorem renderObjectLoop_eq_filterMap (tilesets : List Tileset) :
    ∀ objs : List TiledObject,
      (∀ obj ∈ objs, obj.gid ≠ 0 →
        (getTilesetFrom tilesets obj.gid).isSome) →
      renderObjectLoop tilesets objs
        = some (objs.filterMap (fun obj =>
            if obj.gid = 0 then none
            else some (DrawEvent.tile obj.gid (round obj.x)
              (round (obj.y - obj.height)))))
  | [], _ => rfl
  | obj :: rest, hres => by
    have ih := renderObjectLoop_eq_filterMap tilesets rest
      (fun o ho h0 => hres o (List.mem_cons_of_mem _ ho) h0)
    by_cases h0 : obj.gid = 0
    · simp [renderObjectLoop, h0, ih]
    · obtain ⟨ts, hts⟩ := Option.isSome_iff_exists.mp
        (hres obj (List.mem_cons_self _ _) h0)
      simp [renderObjectLoop, h0, drawTileCall, hts, ih]

/-- C2: the tile pass walks every index `i` of `data.data` in row-major
order; entries equal to 0 produce no draw call, and each non-zero entry at
index `i` is drawn on the composited backing bitmap at destination pixel
`((i % gridHorz) * tileWidth, (i / gridHorz) * tileHeight)`, appended in
iteration order. -/
theorem C2_tile_pass (env : RenderEnv) (l : Layer) (bmp : Bitmap)
    (hg : 0 < l.gridHorz)
    (hres : ∀ id ∈ l.tilesData, id ≠ 0 →
      (getTilesetFrom l.tilesets id).isSome) :
    (l.renderTileLayer env bmp).map Layer.layerBitmap
      = some (some { bmp with draws := bmp.draws ++
          (l.tilesData.enum.filterMap (fun p =>
            if p.2 = 0 then none
            else some (DrawEvent.tile p.2
              (((p.1 % l.gridHorz) * l.tileWidth : Nat) : Int)
              (((p.1 / l.gridHorz) * l.tileHeight : Nat) : Int)))) }) := by
  have h := renderTileLoop_eq_enumFrom l.tilesets l.gridHorz l.tileWidth
    l.tileHeight l.tilesData 0 hres
  simp [Layer.renderTileLayer, h, isLoopMethodTruthy, Layer.renderLoopLayer,
    List.enum]

/-- C2 witness: a 2×2 tile layer with data `[0, 5, 7, 0]` draws tile 5 at
`(16, 0)` (index 1) and tile 7 at `(0, 16)` (index 2), and nothing else. -/
theorem C2_tile_pass_witness :
    (tileLayerA.renderTileLayer (mkEnv false false)
        { width := 32, height := 32 }).map Layer.layerBitmap
      = some (some { width := 32, height := 32,
                     draws := [DrawEvent.tile 5 16 0,
                               DrawEvent.tile 7 0 16] }) := by
  have h := C2_tile_pass (mkEnv false false) tileLayerA
    { width := 32, height := 32 } (by decide) (by decide)
  exact h.trans (by decide)

/-- C3: the object pass walks `data.objects` in array order; entries with
`gid = 0` produce no draw call, and each entry with non-zero `gid` is
drawn on the composited backing bitmap at destination
`(round x, round (y - height))` — the bottom-left anchor converted to
top-left — including fractional `x`, `y`, `height`. -/
theorem C3_object_pass (env : RenderEnv) (l : Layer) (bmp : Bitmap)
    (hres : ∀ obj ∈ l.objectsData, obj.gid ≠ 0 →
      (getTilesetFrom l.tilesets obj.gid).isSome) :
    (l.renderObjectLayer env bmp).map Layer.layerBitmap
      = some (some { bmp with draws := bmp.draws ++
          (l.objectsData.filterMap (fun obj =>
            if obj.gid = 0 then none
            else some (DrawEvent.tile obj.gid (round obj.x)
              (round (obj.y - obj.height))))) }) := by
  have h := renderObjectLoop_eq_filterMap l.tilesets l.objectsData hres
  simp [Layer.renderObjectLayer, h, isLoopMethodTruthy,
    Layer.renderLoopLayer]

/-- C3 witness: the record `gid = 0` draws nothing, and the fractional
record `gid = 5, x = 10.5, y = 50.4, height = 20.2` is drawn at
`(round 10.5, round 30.2) = (11, 30)`. -/
theorem C3_object_pass_witness :
    (objectLayerA.renderObjectLayer (mkEnv false false)
        { width := 0, height := 0 }).map Layer.layerBitmap
      = some (some { width := 0, height := 0,
                     draws := [DrawEvent.tile 5 11 30] }) := by
  have h := C3_object_pass (mkEnv false false) objectLayerA
    { width := 0, height := 0 } (by decide)
  refine h.trans ?_
  norm_num [objectLayerA, Layer.construct, Layer.objectsData, round_eq,
    List.filterMap_cons, List.filterMap_nil]

/-- C4 counterexample: with parsed speed `planeX = -2` (a non-zero
integer), a 100-wide tiling bitmap and origin `(0, 0)`, a single
`update()` leaves the origin at `-2`: the JS remainder keeps the sign of
the dividend, so the origin does NOT remain within `[0, 100)`. -/
theorem C4_counterexample :
    (scrollLayerNeg.update.tilingSprite.map TilingSprite.originX)
        = some (-2)
    ∧ ¬ (0 : Int) ≤ -2 := by decide

set_option maxRecDepth 8000 in
/-- C4 (amended): on each `update()` of a layer owning a tiling sprite,
an axis whose parsed speed is truthy (non-`NaN`, non-zero) gets
`origin := (origin + speed) % dimension` with the JS remainder
(`Int.tmod`, sign of the dividend); an axis whose speed is absent,
non-numeric or zero keeps its origin; when the speed is non-negative and
the prior origin lies within `[0, dimension)`, the origin stays within
`[0, dimension)` (with a negative speed it can leave that range, see the
counterexample); concretely, `planeX = 2, planeY = 0` over a 100-wide
bitmap gives origin `(20, 0)` after 60 updates. -/
theorem C4_plane_scroll (l : Layer) (sprite : TilingSprite)
    (h : l.tilingSprite = some sprite) :
    l.update.tilingSprite = some
      { sprite with
          originX := if truthyNum l.properties.planeX
            then Int.tmod (sprite.originX + (l.properties.planeX).getD 0)
              (sprite.bitmapWidth : Int)
            else sprite.originX,
          originY := if truthyNum l.properties.planeY
            then Int.tmod (sprite.originY + (l.properties.planeY).getD 0)
              (sprite.bitmapHeight : Int)
            else sprite.originY }
    ∧ (l.properties.planeX = none ∨ l.properties.planeX = some 0 →
        l.update.tilingSprite.map TilingSprite.originX
          = some sprite.originX)
    ∧ (0 ≤ sprite.originX → sprite.originX < (sprite.bitmapWidth : Int) →
        0 ≤ (l.properties.planeX).getD 0 →
        ∀ v, l.update.tilingSprite.map TilingSprite.originX = some v →
          0 ≤ v ∧ v < (sprite.bitmapWidth : Int))
    ∧ (Layer.update^[60] scrollLayerA).tilingSprite.map
        (fun s => (s.originX, s.originY)) = some (20, 0) := by
  have h1 : l.update.tilingSprite = some
      { sprite with
          originX := if truthyNum l.properties.planeX
            then Int.tmod (sprite.originX + (l.properties.planeX).getD 0)
              (sprite.bitmapWidth : Int)
            else sprite.originX,
          originY := if truthyNum l.properties.planeY
            then Int.tmod (sprite.originY + (l.properties.planeY).getD 0)
              (sprite.bitmapHeight : Int)
            else sprite.originY } := by
    cases hx : truthyNum l.properties.planeX <;>
      cases hy : truthyNum l.properties.planeY <;>
        simp [Layer.update, Layer.updatePlane, h, hx, hy]
  refine ⟨h1, fun h0 => ?_, fun hge hlt hs v hv => ?_, by decide⟩
  · have hx : truthyNum l.properties.planeX = false := by
      rcases h0 with h0 | h0 <;> simp [truthyNum, h0]
    simp [h1, hx]
  · rw [h1] at hv
    simp only [Option.map_some'] at hv
    have hveq := Option.some_inj.mp hv
    by_cases hx : truthyNum l.properties.planeX = true
    · have hw : (0 : Int) < (sprite.bitmapWidth : Int) := lt_of_le_of_lt hge hlt
      have hnn : 0 ≤ sprite.originX + (l.properties.planeX).getD 0 :=
        add_nonneg hge hs
      rw [← hveq]
      simp only [hx, if_true]
      exact ⟨Int.tmod_nonneg _ hnn, Int.tmod_lt_of_pos _ hw⟩
    · rw [← hveq]
      simp only [Bool.not_eq_true] at hx
      simp only [hx, if_false]
      exact ⟨hge, hlt⟩

/-- C4 witness: with `planeX = 2` and `planeY = 0` on `loopSpriteA`, one
`update()` moves the origin to `(2, 0) = ((0 + 2) tmod 100, unchanged)`. -/
theorem C4_plane_scroll_witness :
    scrollLayerA.tilingSprite = some loopSpriteA
    ∧ scrollLayerA.update.tilingSprite
        = some { loopSpriteA with originX := 2 } := by
  refine ⟨rfl, ?_⟩
  exact ((C4_plane_scroll scrollLayerA loopSpriteA rfl).1).trans (by decide)

/-- C5 counterexample: rendering a layer of unknown type `'fancy'` is not
surface-free — the entry statement of `renderLayer` allocates the 32×32
backing bitmap before the strategy dispatch. -/
theorem C5_counterexample :
    (unknownLayerA.renderLayer (mkEnv false false)).map
        (fun l2 => l2.layerBitmap)
      = some (some { width := 32, height := 32, draws := [] }) := by decide

/-- C5 (amended): for a layer whose `type` is none of the three known
kinds, `renderLayer` triggers none of the four strategies, does not throw,
creates no tiling surface and assigns no visible content — but the backing
bitmap IS still allocated (lazily, empty) by the unconditional entry
statement. -/
theorem C5_unknown_type (env : RenderEnv) (l : Layer)
    (h1 : l.data.type ≠ "tilelayer") (h2 : l.data.type ≠ "objectgroup")
    (h3 : l.data.type ≠ "imagelayer") :
    l.renderLayer env = some l.allocLayerBitmap.1
    ∧ l.allocLayerBitmap.1.tilingSprite = l.tilingSprite
    ∧ l.allocLayerBitmap.1.bitmap = l.bitmap
    ∧ l.allocLayerBitmap.1.layerBitmap.isSome = true
    ∧ (l.layerBitmap = none →
        l.allocLayerBitmap.1.layerBitmap
          = some { width := l.gridHorz * l.tileWidth,
                   height := l.gridVert * l.tileHeight, draws := [] }) := by
  have hf := allocLayerBitmap_fields l
  have hobj : l.allocLayerBitmap.1.isObjectLayer = false := by
    simp [Layer.isObjectLayer, hf.1, h2]
  have htile : l.allocLayerBitmap.1.isTileLayer = false := by
    simp [Layer.isTileLayer, hf.1, h1]
  have himg : l.allocLayerBitmap.1.isImageLayer = false := by
    simp [Layer.isImageLayer, hf.1, h3]
  have hplane : l.allocLayerBitmap.1.isPlaneLayer = false := by
    simp [Layer.isPlaneLayer, himg]
  refine ⟨?_, hf.2.2.1, hf.2.2.2.1, hf.2.2.2.2.1,
    fun hn => (hf.2.2.2.2.2 hn).1⟩
  simp [Layer.renderLayer, hobj, htile, himg, hplane]

/-- C5 witness: the concrete unknown-type layer falls through with no
tiling surface and no visible content. -/
theorem C5_unknown_type_witness :
    unknownLayerA.data.type ≠ "tilelayer"
    ∧ unknownLayerA.renderLayer (mkEnv false false)
        = some unknownLayerA.allocLayerBitmap.1
    ∧ unknownLayerA.allocLayerBitmap.1.tilingSprite = none
    ∧ unknownLayerA.allocLayerBitmap.1.bitmap = none := by
  have h := C5_unknown_type (mkEnv false false) unknownLayerA
    (by decide) (by decide) (by decide)
  exact ⟨by decide, h.1, h.2.1.trans rfl, h.2.2.1.trans rfl⟩

/-- C6 counterexample: a plane layer (image layer with truthy `parallax`)
still gets a backing bitmap: the allocation in `renderLayer` runs
unconditionally before the dispatch, so the backing-bitmap field does not
stay untouched. -/
theorem C6_counterexample :
    (planeLayerA.renderLayer (mkEnv false false)).map
        (fun l2 => l2.layerBitmap.isSome) = some true := by decide

/-- C6 (amended): `renderLayer` on a plane layer allocates the backing
bitmap (unconditional entry statement) but the plane strategy never draws
into it — it stays empty and is never assigned as the node's content; the
image is wrapped directly in a tiling surface positioned at
`(data.x, data.y)` and sized to the viewport.  Among image layers, only
those without `parallax` draw into (and assign) the backing bitmap. -/
theorem C6_plane_bypass (env : RenderEnv) (l : Layer)
    (hplane : l.isPlaneLayer = true) (hinit : l.layerBitmap = none) :
    l.renderLayer env
        = some (Layer.renderPlaneLayer env l.allocLayerBitmap.1)
    ∧ (∀ l2, l.renderLayer env = some l2 →
        l2.layerBitmap = some { width := l.gridHorz * l.tileWidth,
                                height := l.gridVert * l.tileHeight,
                                draws := [] }
        ∧ l2.bitmap = l.bitmap
        ∧ l2.tilingSprite = some
            { bitmapWidth := env.parallaxWidth l.data.image,
              bitmapHeight := env.parallaxHeight l.data.image,
              x := l.data.x, y := l.data.y,
              width := env.graphicsWidth, height := env.graphicsHeight })
    ∧ (∀ l3 : Layer, l3.isImageLayer = true → l3.isPlaneLayer = false →
        l3.layerBitmap = none →
        (l3.renderLayer env).map (fun z => z.layerBitmap.map Bitmap.draws)
          = some (some [DrawEvent.imageBlt l3.data.image
              (env.parallaxWidth l3.data.image)
              (env.parallaxHeight l3.data.image) l3.data.x l3.data.y])) := by
  have hf := allocLayerBitmap_fields l
  have himg : l.isImageLayer = true := by
    have := hplane
    simp [Layer.isPlaneLayer] at this
    exact this.1
  have htype : l.data.type = "imagelayer" := by
    simpa [Layer.isImageLayer] using himg
  have hobj : l.allocLayerBitmap.1.isObjectLayer = false := by
    simp [Layer.isObjectLayer, hf.1, htype]
  have htile : l.allocLayerBitmap.1.isTileLayer = false := by
    simp [Layer.isTileLayer, hf.1, htype]
  have hplane1 : l.allocLayerBitmap.1.isPlaneLayer = true := by
    simpa [Layer.isPlaneLayer, Layer.isImageLayer, Layer.properties, hf.1]
      using hplane
  have himg1 : l.allocLayerBitmap.1.isImageLayer = true := by
    simp [Layer.isImageLayer, hf.1, htype]
  have hmain : l.renderLayer env
      = some (Layer.renderPlaneLayer env l.allocLayerBitmap.1) := by
    simp [Layer.renderLayer, hobj, htile, himg1, hplane1]
  refine ⟨hmain, fun l2 hl2 => ?_, fun l3 himg3 hplane3 hinit3 => ?_⟩
  · rw [hmain] at hl2
    obtain rfl : l2 = Layer.renderPlaneLayer env l.allocLayerBitmap.1 :=
      (Option.some_inj.mp hl2).symm
    refine ⟨?_, ?_, ?_⟩
    · simp [Layer.renderPlaneLayer, (hf.2.2.2.2.2 hinit).1]
    · simp [Layer.renderPlaneLayer, hf.2.2.2.1]
    · simp [Layer.renderPlaneLayer, hf.1]
  · have hf3 := allocLayerBitmap_fields l3
    have htype3 : l3.data.type = "imagelayer" := by
      simpa [Layer.isImageLayer] using himg3
    have hobj3 : l3.allocLayerBitmap.1.isObjectLayer = false := by
      simp [Layer.isObjectLayer, hf3.1, htype3]
    have htile3 : l3.allocLayerBitmap.1.isTileLayer = false := by
      simp [Layer.isTileLayer, hf3.1, htype3]
    have himg31 : l3.allocLayerBitmap.1.isImageLayer = true := by
      simp [Layer.isImageLayer, hf3.1, htype3]
    have hplane31 : l3.allocLayerBitmap.1.isPlaneLayer = false := by
      simpa [Layer.isPlaneLayer, Layer.isImageLayer, Layer.properties,
        hf3.1, htype3] using hplane3
    have halloc := (hf3.2.2.2.2.2 hinit3).2
    simp [Layer.renderLayer, hobj3, htile3, himg31, hplane31,
      Layer.renderImageLayer, hf3.1, halloc]

/-- C6 witness: the concrete plane layer gets a tiling surface wrapping
the 96×48 image, placed at `(3, 4)` and sized to the 816×624 viewport. -/
theorem C6_plane_bypass_witness :
    planeLayerA.isPlaneLayer = true
    ∧ (planeLayerA.renderLayer (mkEnv false false)).map
        (fun l2 => l2.tilingSprite)
      = some (some { bitmapWidth := 96, bitmapHeight := 48, x := 3, y := 4,
                     width := 816, height := 624 }) := by
  have h := C6_plane_bypass (mkEnv false false) planeLayerA (by decide) rfl
  refine ⟨by decide, ?_⟩
  have h2 := (h.2.1 _ h.1).2.2
  rw [h.1, Option.map_some']
  exact congrArg some (h2.trans (by decide))

/-- C8: the tiling surface created by loop wrapping is viewport-wide when
the map loops horizontally and otherwise as wide as the backing bitmap,
and viewport-high when the map loops vertically and otherwise as high as
the backing bitmap; in particular horizontal-only looping yields a
viewport-wide, bitmap-high surface. -/
theorem C8_loop_surface_dims (env : RenderEnv) (bmp : Bitmap) (l : Layer) :
    (l.renderLoopLayer env bmp).tilingSprite.map
        (fun s => (s.width, s.height))
      = some (if Layer.isLoopHorizontal env then env.graphicsWidth
                else bmp.width,
              if Layer.isLoopVertical env then env.graphicsHeight
                else bmp.height)
    ∧ (Layer.isLoopHorizontal env = true →
        Layer.isLoopVertical env = false →
        (l.renderLoopLayer env bmp).tilingSprite.map
            (fun s => (s.width, s.height))
          = some (env.graphicsWidth, bmp.height)) := by
  constructor
  · simp [Layer.renderLoopLayer]
  · intro hh hv
    simp [Layer.renderLoopLayer, hh, hv]

/-- C8 witness: with horizontal looping only, an 816-wide viewport and a
100×50 backing bitmap, the surface is 816 wide and 50 high. -/
theorem C8_loop_surface_dims_witness :
    Layer.isLoopHorizontal (mkEnv true false) = true
    ∧ (tileLayerA.renderLoopLayer (mkEnv true false)
          { width := 100, height := 50 }).tilingSprite.map
        (fun s => (s.width, s.height)) = some (816, 50) := by
  refine ⟨rfl, ?_⟩
  exact ((C8_loop_surface_dims (mkEnv true false) { width := 100, height := 50 }
    tileLayerA).2 (by decide) (by decide)).trans (by decide)
